import Mathlib

/-!
Verification development for the TechnoBolt parts-catalog backend
(`src/main.py`). The core under study is the multi-location inventory
ledger: per-part, per-store stock locations (`ESTOQUE_REDE`), a
two-phase sale flow (`create_sale` / `finalize_sale`), and a transfer
workflow (`request_transfer` / `update_status` / `_credit_dest`).

The embedding is shallow: MongoDB documents become Lean structures, the
collections become lists inside a `DB` state, and each route handler
becomes a pure function from `DB` (plus request data) to either an
`ApiError` (the `HTTPException`s the handler can raise) or a new `DB`.
In every handler of the source, all `raise` statements occur before the
first database write, so returning an error with no new state is a
faithful translation of the control flow.

Mongo operation semantics used by the source and mirrored here:
- `update_one(filter, {$inc/$set/$push})` updates the first matching
  document, or nothing when no document matches (`updateFirst`);
- the positional operator `ESTOQUE_REDE.$` addresses the first array
  element matching the filter clause `ESTOQUE_REDE.loja_id: sid`;
- `find_one(filter, {"ESTOQUE_REDE.$": 1})` projects that same first
  matching array element (`findLoja`);
- `insert_one` appends a new document.

Store ids are Python ints (`Int` here); quantities in ledger documents
are modeled as `Int` (the states reachable through the modeled API keep
them numeric; the `int(...)` coercion in the approve guard is the
identity on such states). The legacy mixed-typed quantities that
`get_parts` defends against are modeled separately by `RawQty`.
Monetary amounts are modeled as `Rat`; `create_sale` only copies them,
so no float rounding is involved in any claim.
-/

namespace TechnoBolt

/-- One entry of a part's `ESTOQUE_REDE` array: a per-store stock
location `{loja_id, nome, qtd, local}`. -/
structure StockLoc where
  loja_id : Int
  nome : String
  qtd : Int
  loc : String
deriving Repr, DecidableEq

/-- A document of the `estoque` (parts) collection, restricted to the
fields the ledger code reads or writes. -/
structure Part where
  id : Nat
  PRODUTO_NOME : String
  IMAGEM_URL : String
  ESTOQUE_REDE : List StockLoc
deriving Repr, DecidableEq

/-- One item of a sale (`SaleItem` pydantic model). -/
structure SaleItem where
  part_id : Nat
  name : String
  quantity : Int
  unit_price : Rat
deriving Repr, DecidableEq

/-- The `SaleCreateRequest` pydantic model: note that `subtotal` and
`total` are fields of the request, supplied by the caller. -/
structure SaleCreateRequest where
  store_id : Int
  seller_name : String
  client_name : String
  discount_percent : Rat
  items : List SaleItem
  subtotal : Rat
  total : Rat
deriving Repr, DecidableEq

/-- A document of the `vendas` (sales) collection. -/
structure Sale where
  id : Nat
  store_id : Int
  seller_name : String
  client_name : String
  discount_percent : Rat
  items : List SaleItem
  subtotal : Rat
  total : Rat
  status : String
  created_at : Nat
  payment_method : Option String
  finalized_at : Option Nat
deriving Repr, DecidableEq

/-- The `TransferRequest` pydantic model. -/
structure TransferRequest where
  part_id : Nat
  from_store_id : Int
  to_store_id : Int
  quantity : Int
  type : String
  user_id : String
deriving Repr, DecidableEq

/-- One entry of a transfer's `history` array. The creation entry
carries a `"time"` field (`datetime.now()`); the entries pushed by
`update_status` carry only `status` and `user`, hence `time : Option`. -/
structure HistEntry where
  status : String
  user : String
  time : Option Nat
deriving Repr, DecidableEq

/-- A document of the `transferencias` collection. Status and type are
kept as strings exactly as in the source, which compares them with
string literals and accepts arbitrary client-supplied `new_status`. -/
structure Transfer where
  id : Nat
  part_id : Nat
  part_name : String
  part_image : String
  from_store_id : Int
  to_store_id : Int
  quantity : Int
  type : String
  status : String
  created_at : Nat
  history : List HistEntry
deriving Repr, DecidableEq

/-- The database state: the three collections the ledger code uses. -/
structure DB where
  parts : List Part
  sales : List Sale
  transfers : List Transfer
deriving Repr, DecidableEq

/-- The `HTTPException`s the modeled handlers can raise. -/
inductive ApiError where
  | dbOffline
  | vendaNaoEncontrada
  | vendaJaFinalizada
  | erroBaixarEstoque
  | pedidoNaoEncontrado
  | origemSemEstoque
  | saldoInsuficiente (disp : Int)
deriving Repr, DecidableEq

/-- `update_one` semantics: apply `f` to the first element satisfying
`p`; when nothing matches, the list is unchanged. -/
def updateFirst {α : Type} (p : α → Bool) (f : α → α) : List α → List α
  | [] => []
  | x :: xs => if p x then f x :: xs else x :: updateFirst p f xs

/-- The array-membership clause `ESTOQUE_REDE.loja_id: sid` of a filter. -/
def hasLoja (sid : Int) (p : Part) : Bool :=
  p.ESTOQUE_REDE.any (fun l => l.loja_id == sid)

/-- The filter `{"_id": pid, "ESTOQUE_REDE.loja_id": sid}`. -/
def partLojaPred (pid : Nat) (sid : Int) (p : Part) : Bool :=
  p.id == pid && hasLoja sid p

/-- Positional update `{"$inc": {"ESTOQUE_REDE.$.qtd": d}}` applied to
a part's array: increments the first location matching `loja_id = sid`. -/
def incFirstLoja (sid : Int) (d : Int) (ls : List StockLoc) : List StockLoc :=
  updateFirst (fun l => l.loja_id == sid) (fun l => { l with qtd := l.qtd + d }) ls

/-- `parts_collection.update_one({"_id": pid, "ESTOQUE_REDE.loja_id": sid},
{"$inc": {"ESTOQUE_REDE.$.qtd": d}})`. -/
def incQtd (parts : List Part) (pid : Nat) (sid : Int) (d : Int) : List Part :=
  updateFirst (partLojaPred pid sid)
    (fun p => { p with ESTOQUE_REDE := incFirstLoja sid d p.ESTOQUE_REDE }) parts

/-- `parts_collection.find_one({"_id": pid, "ESTOQUE_REDE.loja_id": sid},
{"ESTOQUE_REDE.$": 1})`: the first matching location of the matching part. -/
def findLoja (parts : List Part) (pid : Nat) (sid : Int) : Option StockLoc :=
  match parts.find? (partLojaPred pid sid) with
  | none => none
  | some p => p.ESTOQUE_REDE.find? (fun l => l.loja_id == sid)

/-- `_credit_dest(part_oid, store_id, qty)`: increment the store's
location if one exists, else `$push` a new
`{loja_id, nome: "Loja <id>", qtd, local: "Receb."}` entry. -/
def _credit_dest (parts : List Part) (pid : Nat) (store_id : Int) (qty : Int) :
    List Part :=
  if (parts.find? (partLojaPred pid store_id)).isSome then
    incQtd parts pid store_id qty
  else
    updateFirst (fun p => p.id == pid)
      (fun p => { p with ESTOQUE_REDE := p.ESTOQUE_REDE ++
        [{ loja_id := store_id, nome := "Loja " ++ toString store_id,
           qtd := qty, loc := "Receb." }] }) parts

/-- `POST /api/sales/create` (`create_sale`): persists `sale.dict()`
plus `status = "PENDENTE"`, `created_at`, `payment_method = None`, and
returns the inserted id. `newId` models the ObjectId Mongo generates. -/
def create_sale (db : DB) (sale : SaleCreateRequest) (newId : Nat) (now : Nat) :
    DB × Nat :=
  let doc : Sale :=
    { id := newId, store_id := sale.store_id, seller_name := sale.seller_name,
      client_name := sale.client_name, discount_percent := sale.discount_percent,
      items := sale.items, subtotal := sale.subtotal, total := sale.total,
      status := "PENDENTE", created_at := now,
      payment_method := none, finalized_at := none }
  ({ db with sales := db.sales ++ [doc] }, newId)

/-- `POST /api/sales/finalize` (`finalize_sale`): 404 when the sale is
absent, 400 when already `FINALIZADA`; otherwise one unguarded
positional `$inc` of `-quantity` per item, then `$set` of
status / payment_method / finalized_at on the sale. -/
def finalize_sale (db : DB) (sale_id : Nat) (payment_method : String) (now : Nat) :
    Except ApiError DB :=
  match db.sales.find? (fun s => s.id == sale_id) with
  | none => .error .vendaNaoEncontrada
  | some sale =>
    if sale.status == "FINALIZADA" then
      .error .vendaJaFinalizada
    else
      let parts2 := sale.items.foldl
        (fun ps item => incQtd ps item.part_id sale.store_id (-item.quantity))
        db.parts
      let sales2 := updateFirst (fun s => s.id == sale_id)
        (fun s => { s with status := "FINALIZADA",
                           payment_method := some payment_method,
                           finalized_at := some now }) db.sales
      .ok { db with parts := parts2, sales := sales2 }

/-- `POST /api/logistics/request` (`request_transfer`): looks the part
up only to snapshot name/image (fallback `"Desconhecido"` / `""`), then
inserts a `PENDENTE` transfer whose history holds the single creation
entry `{status, user, time}`. No other validation is performed. -/
def request_transfer (db : DB) (req : TransferRequest) (newId : Nat) (now : Nat) :
    DB :=
  let part? := db.parts.find? (fun p => p.id == req.part_id)
  let part_name := match part? with
    | some p => p.PRODUTO_NOME
    | none => "Desconhecido"
  let part_image := match part? with
    | some p => p.IMAGEM_URL
    | none => ""
  let doc : Transfer :=
    { id := newId, part_id := req.part_id, part_name := part_name,
      part_image := part_image, from_store_id := req.from_store_id,
      to_store_id := req.to_store_id, quantity := req.quantity,
      type := req.type, status := "PENDENTE", created_at := now,
      history := [{ status := "PENDENTE", user := req.user_id, time := some now }] }
  { db with transfers := db.transfers ++ [doc] }

/-- `POST /api/logistics/update-status` (`update_status`): 404 when the
transfer is absent. For `new_status = "APROVADO"`: origin-balance guard
(404/400 raised before any write), then debit origin; `RETIRADA`
additionally credits the destination and rewrites the status to
`"CONCLUIDO"`, `ENTREGA` rewrites it to `"SEPARACAO"`. For
`new_status = "CONCLUIDO"` on an `ENTREGA` transfer: credit the
destination. Any other `new_status` reaches the final update directly.
The final update `$set`s the (possibly rewritten) status and `$push`es
a `{status, user}` history entry (no time field). The current status of
the transfer is never inspected. -/
def update_status (db : DB) (transfer_id : Nat) (new_status : String)
    (user_id : String) : Except ApiError DB :=
  match db.transfers.find? (fun t => t.id == transfer_id) with
  | none => .error .pedidoNaoEncontrado
  | some transfer =>
    let qty := transfer.quantity
    let from_id := transfer.from_store_id
    let to_id := transfer.to_store_id
    let pid := transfer.part_id
    let step : Except ApiError (List Part × String) :=
      if new_status == "APROVADO" then
        match findLoja db.parts pid from_id with
        | none => .error .origemSemEstoque
        | some loja =>
          let curr_qtd := loja.qtd
          if curr_qtd < qty then
            .error (.saldoInsuficiente curr_qtd)
          else if transfer.type == "RETIRADA" then
            .ok (_credit_dest (incQtd db.parts pid from_id (-qty)) pid to_id qty,
                 "CONCLUIDO")
          else
            .ok (incQtd db.parts pid from_id (-qty), "SEPARACAO")
      else if new_status == "CONCLUIDO" && transfer.type == "ENTREGA" then
        .ok (_credit_dest db.parts pid to_id qty, new_status)
      else
        .ok (db.parts, new_status)
    match step with
    | .error e => .error e
    | .ok (parts2, final_status) =>
      let transfers2 := updateFirst (fun t => t.id == transfer_id)
        (fun t => { t with
          status := final_status,
          history := t.history ++
            [{ status := final_status, user := user_id, time := none }] })
        db.transfers
      .ok { db with parts := parts2, transfers := transfers2 }

/-! ### Observation helpers over handler results -/

/-- The new database state of a successful handler call, if any. -/
def getOk : Except ApiError DB → Option DB
  | .ok d => some d
  | .error _ => none

/-- Whether a handler call succeeded. -/
def isOkE (r : Except ApiError DB) : Bool :=
  (getOk r).isSome

/-- `transfers_collection.find_one({"_id": tid})`. -/
def transferOf (db : DB) (tid : Nat) : Option Transfer :=
  db.transfers.find? (fun t => t.id == tid)

/-- `sales_collection.find_one({"_id": sid})`. -/
def saleOf (db : DB) (sid : Nat) : Option Sale :=
  db.sales.find? (fun s => s.id == sid)

/-- The stored quantity of a part at a store, when a location exists. -/
def qtdAt (db : DB) (pid : Nat) (sid : Int) : Option Int :=
  (findLoja db.parts pid sid).map StockLoc.qtd

/-- Parts collection after a successful call. -/
def resParts (r : Except ApiError DB) : Option (List Part) :=
  (getOk r).map DB.parts

/-- A transfer document after a successful call. -/
def resTransfer (r : Except ApiError DB) (tid : Nat) : Option Transfer :=
  (getOk r).bind (fun d => transferOf d tid)

/-- A sale document after a successful call. -/
def resSale (r : Except ApiError DB) (sid : Nat) : Option Sale :=
  (getOk r).bind (fun d => saleOf d sid)

/-- A stored quantity after a successful call. -/
def resQtdAt (r : Except ApiError DB) (pid : Nat) (sid : Int) : Option Int :=
  (getOk r).bind (fun d => qtdAt d pid sid)

/-- The non-negativity invariant over the parts collection. -/
def nonnegParts (parts : List Part) : Prop :=
  ∀ p ∈ parts, ∀ l ∈ p.ESTOQUE_REDE, 0 ≤ l.qtd

instance (parts : List Part) : Decidable (nonnegParts parts) :=
  inferInstanceAs (Decidable (∀ p ∈ parts, ∀ l ∈ p.ESTOQUE_REDE, 0 ≤ l.qtd))

/-! ### Spec-side definitions (refinement comparisons)

These two follow the spec's words, not the source, and exist only to be
compared with what the source persists: the spec says `createSale`
"computes subtotal/total from the supplied unit prices and quantities"
and the discount. -/

/-- Spec-side subtotal: sum over items of unit price times quantity. -/
def subtotal_spec (items : List SaleItem) : Rat :=
  (items.map (fun i => i.unit_price * (i.quantity : Rat))).sum

/-- Spec-side total: subtotal reduced by the percentage discount. -/
def total_spec (items : List SaleItem) (discount_percent : Rat) : Rat :=
  subtotal_spec items * (1 - discount_percent / 100)

/-! ### Legacy quantity coercion (`get_parts` total-stock loop)

`get_parts` sums `loja.get("qtd", 0)` over `ESTOQUE_REDE`, coercing each
raw value with Python `int(...)` inside `try/except (ValueError,
TypeError): pass`, so malformed values contribute nothing. `RawQty`
models the raw stored value: a number, a string, or `null` for
`None`/other non-convertible data (a missing `"qtd"` key defaults to the
number `0`, which coerces to `0` as well). -/

/-- A raw, possibly legacy-typed stored quantity. -/
inductive RawQty where
  | num (n : Int)
  | str (s : String)
  | null
deriving Repr, DecidableEq

/-- A raw `ESTOQUE_REDE` entry as read by `get_parts` (only `qtd` is
used by the total-stock computation). -/
structure RawLoc where
  qtd : RawQty
deriving Repr, DecidableEq

/-- Value of a digit string, most significant first. -/
def digitsVal (cs : List Char) : Nat :=
  cs.foldl (fun acc c => acc * 10 + (c.toNat - 48)) 0

/-- ASCII whitespace, as stripped by Python `int(...)` around a numeric
string. -/
def isPySpace (c : Char) : Bool :=
  c == ' ' || c == '\t' || c == '\n' || c == '\r' || c == '\x0b' || c == '\x0c'

/-- Strip leading and trailing whitespace from a character list. -/
def trimChars (cs : List Char) : List Char :=
  ((cs.dropWhile isPySpace).reverse.dropWhile isPySpace).reverse

/-- Python `int(s)` on a string: surrounding whitespace stripped, an
optional sign, then at least one decimal digit; `none` models the
`ValueError` raised otherwise. -/
def pyParseInt (s : String) : Option Int :=
  match trimChars s.toList with
  | [] => none
  | c :: rest =>
    if c == '-' then
      if !rest.isEmpty && rest.all Char.isDigit then
        some (-(digitsVal rest : Int))
      else none
    else if c == '+' then
      if !rest.isEmpty && rest.all Char.isDigit then
        some ((digitsVal rest : Int))
      else none
    else if (c :: rest).all Char.isDigit then
      some ((digitsVal (c :: rest) : Int))
    else none

/-- `try: int(raw) except (ValueError, TypeError): pass` — the
contribution of one raw quantity to the running total. -/
def intOrZero : RawQty → Int
  | .num n => n
  | .str s =>
    match pyParseInt s with
    | some n => n
    | none => 0
  | .null => 0

/-- The `total_qtd` accumulation loop of `get_parts` (lines 157-164):
a fold starting at 0 adding each entry's coerced quantity. Total by
construction: no input can make it raise. -/
def total_qtd (estoque_rede : List RawLoc) : Int :=
  estoque_rede.foldl (fun acc loja => acc + intOrZero loja.qtd) 0

/-- Spec-side total stock, following the spec's words: the sum of all
stored quantities, each coerced to an integer with malformed values
treated as zero. -/
def totalStock_spec (estoque_rede : List RawLoc) : Int :=
  (estoque_rede.map (fun l => intOrZero l.qtd)).sum

/-! ### Concrete states used by counterexamples and witnesses -/

/-- An already-settled DELIVERY (`ENTREGA`) transfer: origin was debited
at approval, destination was credited at the first `CONCLUIDO`. -/
def dbC1 : DB :=
  { parts := [{ id := 1, PRODUTO_NOME := "Filtro de Oleo", IMAGEM_URL := "",
                ESTOQUE_REDE := [{ loja_id := 1, nome := "Loja 1", qtd := 0, loc := "A1" },
                                 { loja_id := 2, nome := "Loja 2", qtd := 7, loc := "Receb." }] }],
    sales := [],
    transfers := [{ id := 10, part_id := 1, part_name := "Filtro de Oleo", part_image := "",
                    from_store_id := 1, to_store_id := 2, quantity := 7,
                    type := "ENTREGA", status := "CONCLUIDO", created_at := 0,
                    history := [{ status := "PENDENTE", user := "ana", time := some 0 },
                                { status := "CONCLUIDO", user := "ana", time := none }] }] }

/-- A `PENDENTE` `ENTREGA` transfer used to exercise an off-table event. -/
def dbC1w : DB :=
  { parts := [],
    sales := [],
    transfers := [{ id := 11, part_id := 1, part_name := "Filtro", part_image := "",
                    from_store_id := 1, to_store_id := 2, quantity := 3,
                    type := "ENTREGA", status := "PENDENTE", created_at := 0,
                    history := [{ status := "PENDENTE", user := "ana", time := some 0 }] }] }

/-- The transfer document sitting in `dbC1w`. -/
def transferC1w : Transfer :=
  { id := 11, part_id := 1, part_name := "Filtro", part_image := "",
    from_store_id := 1, to_store_id := 2, quantity := 3,
    type := "ENTREGA", status := "PENDENTE", created_at := 0,
    history := [{ status := "PENDENTE", user := "ana", time := some 0 }] }

/-- Store 1 holds a single unit of part 1; a pending sale asks for 5. -/
def dbC2 : DB :=
  { parts := [{ id := 1, PRODUTO_NOME := "Filtro de Oleo", IMAGEM_URL := "",
                ESTOQUE_REDE := [{ loja_id := 1, nome := "Loja 1", qtd := 1, loc := "A1" }] }],
    sales := [{ id := 5, store_id := 1, seller_name := "joao", client_name := "cliente",
                discount_percent := 0,
                items := [{ part_id := 1, name := "Filtro de Oleo", quantity := 5,
                            unit_price := 10 }],
                subtotal := 50, total := 50, status := "PENDENTE", created_at := 0,
                payment_method := none, finalized_at := none }],
    transfers := [] }

/-- A `PENDENTE` `RETIRADA` transfer with enough origin stock. -/
def dbC2w : DB :=
  { parts := [{ id := 1, PRODUTO_NOME := "Filtro de Oleo", IMAGEM_URL := "",
                ESTOQUE_REDE := [{ loja_id := 1, nome := "Loja 1", qtd := 10, loc := "A1" }] }],
    sales := [],
    transfers := [{ id := 20, part_id := 1, part_name := "Filtro de Oleo", part_image := "",
                    from_store_id := 1, to_store_id := 2, quantity := 4,
                    type := "RETIRADA", status := "PENDENTE", created_at := 0,
                    history := [{ status := "PENDENTE", user := "u", time := some 0 }] }] }

/-- State of `dbC2w` after approving transfer 20: origin debited to 6,
a fresh destination location credited with 4, status `CONCLUIDO`. -/
def dbC2w_after : DB :=
  { parts := [{ id := 1, PRODUTO_NOME := "Filtro de Oleo", IMAGEM_URL := "",
                ESTOQUE_REDE := [{ loja_id := 1, nome := "Loja 1", qtd := 6, loc := "A1" },
                                 { loja_id := 2, nome := "Loja 2", qtd := 4, loc := "Receb." }] }],
    sales := [],
    transfers := [{ id := 20, part_id := 1, part_name := "Filtro de Oleo", part_image := "",
                    from_store_id := 1, to_store_id := 2, quantity := 4,
                    type := "RETIRADA", status := "CONCLUIDO", created_at := 0,
                    history := [{ status := "PENDENTE", user := "u", time := some 0 },
                                { status := "CONCLUIDO", user := "u", time := none }] }] }

/-- A pending sale at store 1 whose single item has stock only at
store 2 — store 1 has no `StockLocation` for the part. -/
def saleC3 : Sale :=
  { id := 5, store_id := 1, seller_name := "joao", client_name := "cliente",
    discount_percent := 0,
    items := [{ part_id := 1, name := "Filtro de Oleo", quantity := 3,
                unit_price := 10 }],
    subtotal := 30, total := 30, status := "PENDENTE", created_at := 0,
    payment_method := none, finalized_at := none }

/-- Part 1 has stock only at store 2; the pending sale `saleC3` is at
store 1, which has no `StockLocation` for the part. -/
def dbC3 : DB :=
  { parts := [{ id := 1, PRODUTO_NOME := "Filtro de Oleo", IMAGEM_URL := "",
                ESTOQUE_REDE := [{ loja_id := 2, nome := "Loja 2", qtd := 9, loc := "B1" }] }],
    sales := [saleC3],
    transfers := [] }

/-- A fresh `PENDENTE` transfer about to be rejected. -/
def transferC4 : Transfer :=
  { id := 10, part_id := 1, part_name := "Filtro", part_image := "",
    from_store_id := 1, to_store_id := 2, quantity := 4,
    type := "ENTREGA", status := "PENDENTE", created_at := 0,
    history := [{ status := "PENDENTE", user := "ana", time := some 0 }] }

/-- A database holding only `transferC4`. -/
def dbC4 : DB :=
  { parts := [], sales := [], transfers := [transferC4] }

/-- State of `dbC4` after the accepted `REJEITADO` transition. -/
def dbC4_after : DB :=
  { parts := [], sales := [],
    transfers := [{ id := 10, part_id := 1, part_name := "Filtro", part_image := "",
                    from_store_id := 1, to_store_id := 2, quantity := 4,
                    type := "ENTREGA", status := "REJEITADO", created_at := 0,
                    history := [{ status := "PENDENTE", user := "ana", time := some 0 },
                                { status := "REJEITADO", user := "bruno", time := none }] }] }

/-- A create-sale request whose supplied `subtotal`/`total` disagree
with any computation from its items (one item: 2 units at 50). -/
def reqC5 : SaleCreateRequest :=
  { store_id := 1, seller_name := "joao", client_name := "maria",
    discount_percent := 0,
    items := [{ part_id := 1, name := "Filtro de Oleo", quantity := 2, unit_price := 50 }],
    subtotal := 999, total := 123 }

/-- An empty database. -/
def dbEmpty : DB :=
  { parts := [], sales := [], transfers := [] }

/-- Scenario B of the spec: a pending DELIVERY transfer asking for 5
units out of an origin store holding only 3. -/
def transferC6w : Transfer :=
  { id := 30, part_id := 1, part_name := "Filtro de Oleo", part_image := "",
    from_store_id := 1, to_store_id := 2, quantity := 5,
    type := "ENTREGA", status := "PENDENTE", created_at := 0,
    history := [{ status := "PENDENTE", user := "u", time := some 0 }] }

/-- The origin stock location of Scenario B: 3 units at store 1. -/
def lojaC6w : StockLoc :=
  { loja_id := 1, nome := "Loja 1", qtd := 3, loc := "A1" }

/-- Scenario B of the spec: origin store 1 holds 3 units, the pending
DELIVERY transfer asks for 5. -/
def dbC6w : DB :=
  { parts := [{ id := 1, PRODUTO_NOME := "Filtro de Oleo", IMAGEM_URL := "",
                ESTOQUE_REDE := [lojaC6w] }],
    sales := [],
    transfers := [transferC6w] }

/-- Scenario A of the spec, parametric in ids and display strings: one
part with 10 units at the origin store and no destination location, and
one `PENDENTE` `RETIRADA` transfer of 5 units with its creation history
entry. -/
def dbScenarioA (pid tid : Nat) (fromId toId : Int)
    (pname pimg nm lc : String) (h0 : HistEntry) : DB :=
  { parts := [{ id := pid, PRODUTO_NOME := pname, IMAGEM_URL := pimg,
                ESTOQUE_REDE := [{ loja_id := fromId, nome := nm, qtd := 10, loc := lc }] }],
    sales := [],
    transfers := [{ id := tid, part_id := pid, part_name := pname, part_image := pimg,
                    from_store_id := fromId, to_store_id := toId, quantity := 5,
                    type := "RETIRADA", status := "PENDENTE", created_at := 0,
                    history := [h0] }] }

/-- An already-`FINALIZADA` sale. -/
def saleC8w : Sale :=
  { id := 5, store_id := 1, seller_name := "joao", client_name := "cliente",
    discount_percent := 0,
    items := [{ part_id := 1, name := "Filtro de Oleo", quantity := 2,
                unit_price := 10 }],
    subtotal := 20, total := 20, status := "FINALIZADA", created_at := 0,
    payment_method := some "PIX", finalized_at := some 1 }

/-- A database in which sale 5 is already settled. -/
def dbC8w : DB :=
  { parts := [{ id := 1, PRODUTO_NOME := "Filtro de Oleo", IMAGEM_URL := "",
                ESTOQUE_REDE := [{ loja_id := 1, nome := "Loja 1", qtd := 8, loc := "A1" }] }],
    sales := [saleC8w],
    transfers := [] }

/-- A transfer request naming a part absent from the catalog, with
origin equal to destination and a negative quantity. -/
def reqC10w : TransferRequest :=
  { part_id := 99, from_store_id := 1, to_store_id := 1, quantity := -3,
    type := "RETIRADA", user_id := "ana" }

/-! ## Lemmas about the Mongo update primitives -/

theorem updateFirst_of_find?_none {α : Type} {p : α → Bool} (f : α → α)
    (l : List α) (h : l.find? p = none) : updateFirst p f l = l := by
  induction l with
  | nil => rfl
  | cons x xs ih =>
    by_cases hpx : p x
    · simp [List.find?_cons_of_pos _ hpx] at h
    · rw [List.find?_cons_of_neg _ hpx] at h
      simp [updateFirst, hpx, ih h]

theorem find?_updateFirst {α : Type} {p : α → Bool} {f : α → α}
    (hf : ∀ a, p a = true → p (f a) = true) :
    ∀ {l : List α} {x : α}, l.find? p = some x →
      (updateFirst p f l).find? p = some (f x) := by
  intro l
  induction l with
  | nil => intro x h; simp [List.find?] at h
  | cons y ys ih =>
    intro x h
    by_cases hpy : p y
    · rw [List.find?_cons_of_pos _ hpy] at h
      injection h with h
      subst h
      simp [updateFirst, hpy, List.find?_cons_of_pos _ (hf y hpy)]
    · rw [List.find?_cons_of_neg _ hpy] at h
      simp [updateFirst, hpy, List.find?_cons_of_neg _ hpy, ih h]

theorem mem_updateFirst {α : Type} {p : α → Bool} {f : α → α} :
    ∀ {l : List α} {y : α}, y ∈ updateFirst p f l →
      y ∈ l ∨ ∃ x, l.find? p = some x ∧ y = f x := by
  intro l
  induction l with
  | nil => intro y h; simp [updateFirst] at h
  | cons z zs ih =>
    intro y h
    by_cases hpz : p z
    · simp only [updateFirst, if_pos hpz, List.mem_cons] at h
      rcases h with h | h
      · exact Or.inr ⟨z, List.find?_cons_of_pos _ hpz, h⟩
      · exact Or.inl (List.mem_cons_of_mem _ h)
    · simp only [updateFirst, if_neg hpz, List.mem_cons] at h
      rcases h with h | h
      · exact Or.inl (by simp [h])
      · rcases ih h with h1 | ⟨x, hx1, hx2⟩
        · exact Or.inl (List.mem_cons_of_mem _ h1)
        · exact Or.inr ⟨x, by rw [List.find?_cons_of_neg _ hpz]; exact hx1, hx2⟩

theorem find?_partLojaPred_none {parts : List Part} {pid : Nat} {sid : Int}
    (h : findLoja parts pid sid = none) :
    parts.find? (partLojaPred pid sid) = none := by
  unfold findLoja at h
  cases hf : parts.find? (partLojaPred pid sid) with
  | none => rfl
  | some p =>
    rw [hf] at h
    have hp : partLojaPred pid sid p = true := List.find?_some hf
    have hany : p.ESTOQUE_REDE.any (fun l => l.loja_id == sid) = true := by
      unfold partLojaPred hasLoja at hp
      exact ((Bool.and_eq_true _ _).mp hp).2
    rw [List.any_eq_true] at hany
    obtain ⟨l, hl, hls⟩ := hany
    exact absurd hls (List.find?_eq_none.mp h l hl)

/-! ## Non-negativity preservation lemmas -/

theorem nonneg_incFirstLoja_credit {ls : List StockLoc} {sid d : Int}
    (h : ∀ l ∈ ls, 0 ≤ l.qtd) (hd : 0 ≤ d) :
    ∀ l ∈ incFirstLoja sid d ls, 0 ≤ l.qtd := by
  intro l hl
  unfold incFirstLoja at hl
  rcases mem_updateFirst hl with hmem | ⟨x, hx1, rfl⟩
  · exact h l hmem
  · exact add_nonneg (h x (List.mem_of_find?_eq_some hx1)) hd

theorem nonneg_incFirstLoja_debit {ls : List StockLoc} {sid qty : Int}
    {loja : StockLoc}
    (h : ∀ l ∈ ls, 0 ≤ l.qtd)
    (hf : ls.find? (fun l => l.loja_id == sid) = some loja)
    (hge : qty ≤ loja.qtd) :
    ∀ l ∈ incFirstLoja sid (-qty) ls, 0 ≤ l.qtd := by
  intro l hl
  unfold incFirstLoja at hl
  rcases mem_updateFirst hl with hmem | ⟨x, hx1, rfl⟩
  · exact h l hmem
  · rw [hf] at hx1
    injection hx1 with hx1
    subst hx1
    show 0 ≤ loja.qtd + (-qty)
    omega

theorem nonneg_incQtd_credit {parts : List Part} {pid : Nat} {sid d : Int}
    (h : nonnegParts parts) (hd : 0 ≤ d) :
    nonnegParts (incQtd parts pid sid d) := by
  intro p hp l hl
  unfold incQtd at hp
  rcases mem_updateFirst hp with hmem | ⟨x, hx1, rfl⟩
  · exact h p hmem l hl
  · exact nonneg_incFirstLoja_credit (h x (List.mem_of_find?_eq_some hx1)) hd l hl

theorem nonneg_incQtd_debit {parts : List Part} {pid : Nat} {sid : Int} {qty : Int}
    {loja : StockLoc}
    (h : nonnegParts parts)
    (hl : findLoja parts pid sid = some loja)
    (hge : qty ≤ loja.qtd) :
    nonnegParts (incQtd parts pid sid (-qty)) := by
  intro p hp l hlmem
  unfold findLoja at hl
  cases hfp : parts.find? (partLojaPred pid sid) with
  | none => rw [hfp] at hl; exact absurd hl (by simp)
  | some x0 =>
    rw [hfp] at hl
    unfold incQtd at hp
    rcases mem_updateFirst hp with hmem | ⟨x, hx1, rfl⟩
    · exact h p hmem l hlmem
    · rw [hfp] at hx1
      injection hx1 with hx1
      subst hx1
      exact nonneg_incFirstLoja_debit (h x0 (List.mem_of_find?_eq_some hfp)) hl hge
        l hlmem

theorem nonneg_credit_dest {parts : List Part} {pid : Nat} {sid qty : Int}
    (h : nonnegParts parts) (hq : 0 ≤ qty) :
    nonnegParts (_credit_dest parts pid sid qty) := by
  unfold _credit_dest
  by_cases hex : (parts.find? (partLojaPred pid sid)).isSome
  · rw [if_pos hex]
    exact nonneg_incQtd_credit h hq
  · rw [if_neg hex]
    intro p hp l hl
    rcases mem_updateFirst hp with hmem | ⟨x, hx1, rfl⟩
    · exact h p hmem l hl
    · rcases List.mem_append.mp hl with hl1 | hl2
      · exact h x (List.mem_of_find?_eq_some hx1) l hl1
      · simp only [List.mem_singleton] at hl2
        subst hl2
        exact hq

/-! ## Inversion of a successful `update_status` call -/

theorem update_status_ok_inv (db : DB) (tid : Nat) (ns user : String) (db2 : DB)
    (hok : update_status db tid ns user = .ok db2) :
    ∃ t fs parts2,
      db.transfers.find? (fun x => x.id == tid) = some t ∧
      db2 = { db with
                parts := parts2,
                transfers := updateFirst (fun x => x.id == tid)
                  (fun x => { x with
                    status := fs,
                    history := x.history ++
                      [{ status := fs, user := user, time := none }] })
                  db.transfers } ∧
      (parts2 = db.parts ∨
       (∃ loja, findLoja db.parts t.part_id t.from_store_id = some loja ∧
          t.quantity ≤ loja.qtd ∧
          (parts2 = _credit_dest
              (incQtd db.parts t.part_id t.from_store_id (-t.quantity))
              t.part_id t.to_store_id t.quantity ∨
           parts2 = incQtd db.parts t.part_id t.from_store_id (-t.quantity))) ∨
       parts2 = _credit_dest db.parts t.part_id t.to_store_id t.quantity) := by
  unfold update_status at hok
  cases hfind : db.transfers.find? (fun x => x.id == tid) with
  | none => rw [hfind] at hok; exact absurd hok (by simp)
  | some t =>
    rw [hfind] at hok
    simp only at hok
    split at hok
    next e hstep => exact absurd hok (by simp)
    next parts2 fs hstep =>
      injection hok with hok
      refine ⟨t, fs, parts2, rfl, hok.symm, ?_⟩
      split at hstep
      next hApr =>
        split at hstep
        next => exact absurd hstep (by simp)
        next loja hloja =>
          split at hstep
          next => exact absurd hstep (by simp)
          next hge =>
            split at hstep
            next hR =>
              injection hstep with hstep
              obtain ⟨h1, h2⟩ := Prod.mk.injEq .. ▸ hstep
              exact Or.inr (Or.inl ⟨loja, hloja, by omega, Or.inl h1.symm⟩)
            next hR =>
              injection hstep with hstep
              obtain ⟨h1, h2⟩ := Prod.mk.injEq .. ▸ hstep
              exact Or.inr (Or.inl ⟨loja, hloja, by omega, Or.inr h1.symm⟩)
      next hApr =>
        split at hstep
        next hC =>
          injection hstep with hstep
          obtain ⟨h1, h2⟩ := Prod.mk.injEq .. ▸ hstep
          exact Or.inr (Or.inr h1.symm)
        next hC =>
          injection hstep with hstep
          obtain ⟨h1, h2⟩ := Prod.mk.injEq .. ▸ hstep
          exact Or.inl h1.symm

theorem foldl_incQtd_skip (store : Int) (items : List SaleItem) (parts : List Part)
    (h : ∀ it ∈ items, findLoja parts it.part_id store = none) :
    items.foldl (fun ps it => incQtd ps it.part_id store (-it.quantity)) parts =
      parts := by
  induction items with
  | nil => rfl
  | cons it its ih =>
    have h1 : incQtd parts it.part_id store (-it.quantity) = parts :=
      updateFirst_of_find?_none _ parts
        (find?_partLojaPred_none (h it (List.mem_cons_self _ _)))
    rw [List.foldl_cons, h1]
    exact ih (fun x hx => h x (List.mem_cons_of_mem _ hx))

/-! ## Claim C1 -/

/-- C1 is false on the code: `update_status` never inspects the current
status, so an off-table (current status, requested event) pair is not
rejected. Concretely, on `dbC1` — an `ENTREGA` transfer already settled
at status `CONCLUIDO`, destination store 2 already credited to 7 —
re-submitting `CONCLUIDO` succeeds, credits the destination again
(7 becomes 14, a double credit), and appends a history entry, instead of
failing with `InvalidState` and producing no side effect. -/
theorem C1_counterexample :
    isOkE (update_status dbC1 10 "CONCLUIDO" "ana") = true ∧
    resQtdAt (update_status dbC1 10 "CONCLUIDO" "ana") 1 2 = some 14 ∧
    (resTransfer (update_status dbC1 10 "CONCLUIDO" "ana") 10).map
      (fun t => t.history.length) = some 3 := by
  decide

/-- C1 (amended): `update_status` performs no transition-table check.
For every stored transfer and every requested status other than
`"APROVADO"`, and other than `"CONCLUIDO"` on an `ENTREGA` transfer, the
call succeeds unconditionally: the ledger is untouched, the transfer's
status is overwritten with the requested status, and one
`{status, user}` history entry is appended — whatever the current
status. (Re-submitting `CONCLUIDO` on an `ENTREGA` transfer also
succeeds and credits the destination again, as `C1_counterexample`
shows; no `InvalidState` rejection exists anywhere.) -/
theorem C1_amended (db : DB) (tid : Nat) (t : Transfer) (ns user : String)
    (hfind : transferOf db tid = some t)
    (hns : ns ≠ "APROVADO")
    (hnc : ¬(ns = "CONCLUIDO" ∧ t.type = "ENTREGA")) :
    isOkE (update_status db tid ns user) = true ∧
    resParts (update_status db tid ns user) = some db.parts ∧
    (resTransfer (update_status db tid ns user) tid).map Transfer.status =
      some ns ∧
    (resTransfer (update_status db tid ns user) tid).map Transfer.history =
      some (t.history ++ [{ status := ns, user := user, time := none }]) := by
  unfold transferOf at hfind
  have h1 : (ns == "APROVADO") = false := by
    simpa using hns
  have h2 : (ns == "CONCLUIDO" && t.type == "ENTREGA") = false := by
    rcases eq_or_ne ns "CONCLUIDO" with hc | hc
    · subst hc
      have ht : t.type ≠ "ENTREGA" := fun h => hnc ⟨rfl, h⟩
      simpa using ht
    · simp [hc]
  have hres : update_status db tid ns user = .ok { db with
      parts := db.parts,
      transfers := updateFirst (fun x => x.id == tid)
        (fun x => { x with
          status := ns,
          history := x.history ++ [{ status := ns, user := user, time := none }] })
        db.transfers } := by
    unfold update_status
    rw [hfind]
    simp [h1, h2]
  have hfd := find?_updateFirst (p := fun x : Transfer => x.id == tid)
    (f := fun x => { x with
      status := ns,
      history := x.history ++ [{ status := ns, user := user, time := none }] })
    (fun a ha => ha) hfind
  rw [hres]
  refine ⟨rfl, rfl, ?_, ?_⟩
  · simp [resTransfer, getOk, transferOf, hfd]
  · simp [resTransfer, getOk, transferOf, hfd]

/-- Witness for `C1_amended`: marking the `PENDENTE` `ENTREGA` transfer
of `dbC1w` as `TRANSITO` — an off-table event — is accepted. -/
theorem C1_witness :
    isOkE (update_status dbC1w 11 "TRANSITO" "bruno") = true ∧
    resParts (update_status dbC1w 11 "TRANSITO" "bruno") = some dbC1w.parts ∧
    (resTransfer (update_status dbC1w 11 "TRANSITO" "bruno") 11).map
      Transfer.status = some "TRANSITO" ∧
    (resTransfer (update_status dbC1w 11 "TRANSITO" "bruno") 11).map
      Transfer.history = some (transferC1w.history ++
        [{ status := "TRANSITO", user := "bruno", time := none }]) :=
  C1_amended dbC1w 11 transferC1w "TRANSITO" "bruno"
    (by decide) (by decide) (by decide)

/-! ## Claim C2 -/

/-- C2 is false on the code: the sale-finalization debit is unguarded.
On `dbC2`, store 1 holds 1 unit of part 1 and the pending sale asks for
5; `finalize_sale` succeeds anyway and leaves the stored quantity at
-4. -/
theorem C2_counterexample :
    qtdAt dbC2 1 1 = some 1 ∧
    isOkE (finalize_sale dbC2 5 "PIX" 1) = true ∧
    resQtdAt (finalize_sale dbC2 5 "PIX" 1) 1 1 = some (-4) := by
  decide

/-- C2 (amended): the transfer workflow does preserve `quantity >= 0`:
starting from a state with all stored quantities non-negative and all
transfer quantities non-negative, any successful `update_status` call
(the approval debit is guarded by the balance check; destination credits
add a non-negative amount) leaves every stored quantity non-negative.
The sale-finalization debit, by contrast, is unguarded and violates the
invariant (`C2_counterexample`). -/
theorem C2_amended (db : DB) (tid : Nat) (ns user : String) (db2 : DB)
    (hnn : nonnegParts db.parts)
    (hq : ∀ t ∈ db.transfers, 0 ≤ t.quantity)
    (hok : update_status db tid ns user = .ok db2) :
    nonnegParts db2.parts := by
  obtain ⟨t, fs, parts2, hfind, hdb2, hcases⟩ :=
    update_status_ok_inv db tid ns user db2 hok
  have hqt : 0 ≤ t.quantity := hq t (List.mem_of_find?_eq_some hfind)
  subst hdb2
  show nonnegParts parts2
  rcases hcases with h | ⟨loja, hloja, hge, h | h⟩ | h
  · exact h ▸ hnn
  · subst h
    exact nonneg_credit_dest (nonneg_incQtd_debit hnn hloja hge) hqt
  · subst h
    exact nonneg_incQtd_debit hnn hloja hge
  · subst h
    exact nonneg_credit_dest hnn hqt

/-- Witness for `C2_amended`: approving the `RETIRADA` transfer of
`dbC2w` (origin 10 units, quantity 4) yields `dbC2w_after`, whose
quantities are all non-negative. -/
theorem C2_witness : nonnegParts dbC2w_after.parts :=
  C2_amended dbC2w 20 "APROVADO" "u" dbC2w_after (by decide) (by decide) (by rfl)

/-! ## Claim C3 -/

/-- C3 is false on the code: there is no `StockDebitFailed`. On `dbC3`
the sale's store has no `StockLocation` for the item's part; the debit's
`update_one` filter matches no document, the item is silently skipped
(parts collection unchanged), and the sale is finalized anyway. -/
theorem C3_counterexample :
    isOkE (finalize_sale dbC3 5 "PIX" 1) = true ∧
    resParts (finalize_sale dbC3 5 "PIX" 1) = some dbC3.parts ∧
    (resSale (finalize_sale dbC3 5 "PIX" 1) 5).map Sale.status =
      some "FINALIZADA" := by
  decide

/-- C3 (amended): for every stored sale that is not already
`FINALIZADA`, `finalize_sale` always succeeds and marks the sale
`FINALIZADA` with the given payment method, regardless of stock: each
item's debit is an unconditional first-match decrement, and an item
whose store has no stock location for the part is silently skipped — in
particular, when no item has a matching location the parts collection is
returned unchanged. No structured stock error is ever produced. -/
theorem C3_amended (db : DB) (sid : Nat) (pm : String) (now : Nat) (s : Sale)
    (hfind : saleOf db sid = some s)
    (hst : s.status ≠ "FINALIZADA") :
    isOkE (finalize_sale db sid pm now) = true ∧
    (resSale (finalize_sale db sid pm now) sid).map Sale.status =
      some "FINALIZADA" ∧
    (resSale (finalize_sale db sid pm now) sid).map Sale.payment_method =
      some (some pm) ∧
    ((∀ it ∈ s.items, findLoja db.parts it.part_id s.store_id = none) →
      resParts (finalize_sale db sid pm now) = some db.parts) := by
  unfold saleOf at hfind
  have hb : (s.status == "FINALIZADA") = false := by
    simpa using hst
  have hres : finalize_sale db sid pm now = .ok { db with
      parts := s.items.foldl
        (fun ps item => incQtd ps item.part_id s.store_id (-item.quantity))
        db.parts,
      sales := updateFirst (fun x => x.id == sid)
        (fun x => { x with
          status := "FINALIZADA", payment_method := some pm,
          finalized_at := some now }) db.sales } := by
    unfold finalize_sale
    rw [hfind]
    simp [hb]
  have hfd := find?_updateFirst (p := fun x : Sale => x.id == sid)
    (f := fun x => { x with
      status := "FINALIZADA", payment_method := some pm,
      finalized_at := some now })
    (fun a ha => ha) hfind
  rw [hres]
  refine ⟨rfl, ?_, ?_, ?_⟩
  · simp [resSale, getOk, saleOf, hfd]
  · simp [resSale, getOk, saleOf, hfd]
  · intro hall
    simp [resParts, getOk, foldl_incQtd_skip _ _ _ hall]

/-- Witness for `C3_amended`, at the concrete state `dbC3`: the
finalization succeeds and, since no item of `saleC3` has a stock
location at the sale's store, the parts collection is unchanged. -/
theorem C3_witness :
    isOkE (finalize_sale dbC3 5 "PIX" 1) = true ∧
    resParts (finalize_sale dbC3 5 "PIX" 1) = some dbC3.parts :=
  ⟨(C3_amended dbC3 5 "PIX" 1 saleC3 (by decide) (by decide)).1,
   (C3_amended dbC3 5 "PIX" 1 saleC3 (by decide) (by decide)).2.2.2 (by decide)⟩

/-! ## Claim C4 -/

/-- C4 is false on the code in its "timestamp" part: the history record
pushed by `update_status` holds only a status and a user, with no
time field. On `dbC4`, the accepted `PENDENTE -> REJEITADO` transition
appends exactly one record, but that record's `time` is `none`. -/
theorem C4_counterexample :
    isOkE (update_status dbC4 10 "REJEITADO" "bruno") = true ∧
    (resTransfer (update_status dbC4 10 "REJEITADO" "bruno") 10).map
      (fun t => t.history.length) = some 2 ∧
    ((resTransfer (update_status dbC4 10 "REJEITADO" "bruno") 10).bind
      (fun t => t.history.getLast?)).map HistEntry.time = some none := by
  decide

/-- C4 (amended): every accepted transition appends exactly one
`{status, actor}` record — carrying the stored (possibly rewritten)
status and the acting user but no timestamp — to the end of the
transfer's history, and the history is append-only: the previous
entries survive unchanged, in order, as `dropLast` of the new history. -/
theorem C4_amended (db : DB) (tid : Nat) (t : Transfer) (ns user : String)
    (db2 : DB)
    (hfind : transferOf db tid = some t)
    (hok : update_status db tid ns user = .ok db2) :
    (transferOf db2 tid).map (fun x => x.history.dropLast) = some t.history ∧
    (transferOf db2 tid).map (fun x => x.history.length) =
      some (t.history.length + 1) ∧
    ((transferOf db2 tid).bind (fun x => x.history.getLast?)).map HistEntry.user =
      some user ∧
    ((transferOf db2 tid).bind (fun x => x.history.getLast?)).map HistEntry.time =
      some none ∧
    ((transferOf db2 tid).bind (fun x => x.history.getLast?)).map
      HistEntry.status = (transferOf db2 tid).map Transfer.status := by
  unfold transferOf at hfind
  obtain ⟨t2, fs, parts2, hfind2, hdb2, _⟩ :=
    update_status_ok_inv db tid ns user db2 hok
  rw [hfind2] at hfind
  injection hfind with hfind
  subst hfind
  subst hdb2
  have hfd := find?_updateFirst (p := fun x : Transfer => x.id == tid)
    (f := fun x => { x with
      status := fs,
      history := x.history ++ [{ status := fs, user := user, time := none }] })
    (fun a ha => ha) hfind2
  simp [transferOf, hfd, List.getLast?_concat]

/-- Witness for `C4_amended`: rejecting the pending transfer of `dbC4`
appends one `{status, user}` record with no timestamp and preserves the
creation entry. -/
theorem C4_witness :
    (transferOf dbC4_after 10).map (fun x => x.history.dropLast) =
      some transferC4.history ∧
    (transferOf dbC4_after 10).map (fun x => x.history.length) =
      some (transferC4.history.length + 1) ∧
    ((transferOf dbC4_after 10).bind (fun x => x.history.getLast?)).map
      HistEntry.user = some "bruno" ∧
    ((transferOf dbC4_after 10).bind (fun x => x.history.getLast?)).map
      HistEntry.time = some none ∧
    ((transferOf dbC4_after 10).bind (fun x => x.history.getLast?)).map
      HistEntry.status = (transferOf dbC4_after 10).map Transfer.status :=
  C4_amended dbC4 10 transferC4 "REJEITADO" "bruno" dbC4_after
    (by decide) (by rfl)

/-! ## Claim C5 -/

/-- C5 is false in its "computed" part: `create_sale` persists the
caller-supplied `subtotal`/`total` verbatim (`sale.dict()`), with no
server-side computation. On `reqC5` the single item is 2 units at 50
with no discount, so any computation from items and discount yields
subtotal 100 and total 100, yet the persisted sale carries the supplied
999 and 123. -/
theorem C5_counterexample :
    ((create_sale dbEmpty reqC5 7 0).1.sales.getLast?).map
      (fun s => (s.subtotal, s.total)) = some ((999 : Rat), (123 : Rat)) ∧
    subtotal_spec reqC5.items = 100 ∧
    total_spec reqC5.items reqC5.discount_percent = 100 ∧
    ((999 : Rat), (123 : Rat)) ≠ ((100 : Rat), (100 : Rat)) := by
  refine ⟨by decide, ?_, ?_, by decide⟩
  · norm_num [subtotal_spec, reqC5]
  · norm_num [total_spec, subtotal_spec, reqC5]

/-- C5 (amended): `create_sale` persists the request verbatim — the
supplied items, discount, `subtotal` and `total` are stored unchanged
(they are trusted, not recomputed) — together with status `PENDENTE`, a
null `payment_method` and the creation time; the new sale is appended to
the sales collection, its id is returned, and neither the parts
collection (so no `StockLocation` quantity) nor the transfers collection
is touched. -/
theorem C5_amended (db : DB) (req : SaleCreateRequest) (newId now : Nat) :
    (create_sale db req newId now).2 = newId ∧
    (create_sale db req newId now).1.parts = db.parts ∧
    (create_sale db req newId now).1.transfers = db.transfers ∧
    (create_sale db req newId now).1.sales.dropLast = db.sales ∧
    ((create_sale db req newId now).1.sales.getLast?).map
      (fun s => (s.store_id, s.items, s.discount_percent, s.subtotal, s.total,
                 s.status, s.payment_method, s.created_at)) =
      some (req.store_id, req.items, req.discount_percent, req.subtotal,
            req.total, "PENDENTE", (none : Option String), now) := by
  refine ⟨rfl, rfl, rfl, ?_, ?_⟩
  · simp [create_sale]
  · simp [create_sale, List.getLast?_concat]

/-! ## Claim C6 -/

/-- C6: for every stored `PENDENTE` transfer whose origin store has a
stock location holding less than the requested quantity, the approve
event (`new_status = "APROVADO"`) fails with the insufficient-stock
error carrying the available quantity. In the source all raises occur
before any write, and this embedding returns the error without a new
state: the transfer keeps its status, no ledger mutation happens, and no
history entry is appended. -/
theorem C6_theorem (db : DB) (tid : Nat) (user : String) (t : Transfer)
    (loja : StockLoc)
    (hfind : transferOf db tid = some t)
    (_hstat : t.status = "PENDENTE")
    (hloja : findLoja db.parts t.part_id t.from_store_id = some loja)
    (hlt : loja.qtd < t.quantity) :
    update_status db tid "APROVADO" user =
      .error (.saldoInsuficiente loja.qtd) := by
  unfold transferOf at hfind
  unfold update_status
  rw [hfind]
  simp [hloja, hlt]

/-- Witness for `C6_theorem`: Scenario B of the spec — origin holds 3,
requested 5, approval fails carrying the available quantity 3. -/
theorem C6_witness :
    update_status dbC6w 30 "APROVADO" "u" =
      .error (.saldoInsuficiente 3) :=
  C6_theorem dbC6w 30 "u" transferC6w lojaC6w
    (by decide) (by decide) (by decide) (by decide)

/-! ## Claim C7 -/

/-- C7: Scenario A — for any `PENDENTE` `RETIRADA` (PICKUP) transfer of
quantity 5 whose origin store holds 10 units and whose destination store
(distinct from the origin) has no stock location yet, the approve event
succeeds, the origin ends at 5, a new destination location is created
holding 5, the final status is `CONCLUIDO` in the same call, and the
history ends with exactly 2 entries (creation plus the approval
record). -/
theorem C7_theorem (pid tid : Nat) (fromId toId : Int)
    (pname pimg nm lc u : String) (h0 : HistEntry)
    (hne : fromId ≠ toId) :
    isOkE (update_status (dbScenarioA pid tid fromId toId pname pimg nm lc h0)
      tid "APROVADO" u) = true ∧
    resQtdAt (update_status (dbScenarioA pid tid fromId toId pname pimg nm lc h0)
      tid "APROVADO" u) pid fromId = some 5 ∧
    resQtdAt (update_status (dbScenarioA pid tid fromId toId pname pimg nm lc h0)
      tid "APROVADO" u) pid toId = some 5 ∧
    (resTransfer (update_status (dbScenarioA pid tid fromId toId pname pimg nm lc h0)
      tid "APROVADO" u) tid).map Transfer.status = some "CONCLUIDO" ∧
    (resTransfer (update_status (dbScenarioA pid tid fromId toId pname pimg nm lc h0)
      tid "APROVADO" u) tid).map (fun x => x.history.length) = some 2 := by
  have hb1 : (fromId == toId) = false := by simpa using hne
  have hb2 : (toId == fromId) = false := by simpa using hne.symm
  simp [dbScenarioA, update_status, findLoja, partLojaPred, hasLoja, incQtd,
        incFirstLoja, _credit_dest, updateFirst, transferOf, qtdAt, resQtdAt,
        resTransfer, getOk, isOkE, hb1, hb2]

/-- Witness for `C7_theorem` at concrete ids and names. -/
theorem C7_witness :
    isOkE (update_status (dbScenarioA 1 40 1 2 "Filtro" "" "Loja 1" "A1"
      { status := "PENDENTE", user := "u", time := some 0 })
      40 "APROVADO" "u") = true ∧
    resQtdAt (update_status (dbScenarioA 1 40 1 2 "Filtro" "" "Loja 1" "A1"
      { status := "PENDENTE", user := "u", time := some 0 })
      40 "APROVADO" "u") 1 1 = some 5 ∧
    resQtdAt (update_status (dbScenarioA 1 40 1 2 "Filtro" "" "Loja 1" "A1"
      { status := "PENDENTE", user := "u", time := some 0 })
      40 "APROVADO" "u") 1 2 = some 5 ∧
    (resTransfer (update_status (dbScenarioA 1 40 1 2 "Filtro" "" "Loja 1" "A1"
      { status := "PENDENTE", user := "u", time := some 0 })
      40 "APROVADO" "u") 40).map Transfer.status = some "CONCLUIDO" ∧
    (resTransfer (update_status (dbScenarioA 1 40 1 2 "Filtro" "" "Loja 1" "A1"
      { status := "PENDENTE", user := "u", time := some 0 })
      40 "APROVADO" "u") 40).map (fun x => x.history.length) = some 2 :=
  C7_theorem 1 40 1 2 "Filtro" "" "Loja 1" "A1" "u"
    { status := "PENDENTE", user := "u", time := some 0 } (by decide)

/-! ## Claim C8 -/

/-- C8: once a sale's stored status is `FINALIZADA`, every further
`finalize_sale` call on it fails with the already-finalized error. The
raise occurs before any write in the source, and this embedding returns
the error without a new state: the sale record is unchanged and no stock
quantity is debited again. -/
theorem C8_theorem (db : DB) (sid : Nat) (pm : String) (now : Nat) (s : Sale)
    (hfind : saleOf db sid = some s)
    (hst : s.status = "FINALIZADA") :
    finalize_sale db sid pm now = .error .vendaJaFinalizada := by
  unfold saleOf at hfind
  unfold finalize_sale
  rw [hfind]
  simp [hst]

/-- Witness for `C8_theorem`: re-finalizing the settled sale of `dbC8w`
with a different payment method fails. -/
theorem C8_witness :
    finalize_sale dbC8w 5 "CARTAO" 2 = .error .vendaJaFinalizada :=
  C8_theorem dbC8w 5 "CARTAO" 2 saleC8w (by decide) (by decide)

/-! ## Claim C9 -/

theorem foldl_add_map_sum {α : Type} (f : α → Int) (l : List α) (a : Int) :
    l.foldl (fun acc x => acc + f x) a = a + (l.map f).sum := by
  induction l generalizing a with
  | nil => simp
  | cons x xs ih => simp [List.foldl_cons, ih, add_assoc]

/-- C9: the total-stock accumulation loop of `get_parts` computes, for
any mix of numeric, string-typed and malformed stored quantities, the
sum of the locations' quantities coerced to integers with
non-numeric/malformed values counted as zero — and, being a total
function by construction, it never raises. -/
theorem C9_theorem (estoque_rede : List RawLoc) :
    total_qtd estoque_rede = totalStock_spec estoque_rede := by
  unfold total_qtd totalStock_spec
  simpa using foldl_add_map_sum (fun l => intOrZero l.qtd) estoque_rede 0

/-! ## Claim C10 -/

/-- C10: `request_transfer` validates nothing beyond database
availability: for every request — including one whose origin equals its
destination or whose quantity is zero or negative — it succeeds,
leaves parts and sales untouched, and appends a `PENDENTE` transfer
whose history is the single creation entry; when the referenced part
does not exist, the snapshot name is the placeholder `"Desconhecido"`
and the snapshot image is empty. -/
theorem C10_theorem (db : DB) (req : TransferRequest) (newId now : Nat)
    (habs : db.parts.find? (fun p => p.id == req.part_id) = none) :
    (request_transfer db req newId now).parts = db.parts ∧
    (request_transfer db req newId now).sales = db.sales ∧
    (request_transfer db req newId now).transfers.dropLast = db.transfers ∧
    ((request_transfer db req newId now).transfers.getLast?).map
      (fun t => (t.status, t.history, t.part_name, t.part_image,
                 t.from_store_id, t.to_store_id, t.quantity, t.type)) =
      some ("PENDENTE",
            [{ status := "PENDENTE", user := req.user_id, time := some now }],
            "Desconhecido", "", req.from_store_id, req.to_store_id,
            req.quantity, req.type) := by
  refine ⟨rfl, rfl, ?_, ?_⟩
  · simp [request_transfer]
  · simp [request_transfer, habs, List.getLast?_concat]

/-- Witness for `C10_theorem`: a request for the absent part 99, with
origin equal to destination and a negative quantity, still persists a
`PENDENTE` transfer with the placeholder snapshot. -/
theorem C10_witness :
    (request_transfer dbEmpty reqC10w 50 3).parts = dbEmpty.parts ∧
    (request_transfer dbEmpty reqC10w 50 3).sales = dbEmpty.sales ∧
    (request_transfer dbEmpty reqC10w 50 3).transfers.dropLast =
      dbEmpty.transfers ∧
    ((request_transfer dbEmpty reqC10w 50 3).transfers.getLast?).map
      (fun t => (t.status, t.history, t.part_name, t.part_image,
                 t.from_store_id, t.to_store_id, t.quantity, t.type)) =
      some ("PENDENTE",
            [{ status := "PENDENTE", user := reqC10w.user_id, time := some 3 }],
            "Desconhecido", "", reqC10w.from_store_id, reqC10w.to_store_id,
            reqC10w.quantity, reqC10w.type) :=
  C10_theorem dbEmpty reqC10w 50 3 (by decide)

end TechnoBolt
